import Mathlib

/-!
Verification of the mock-es bulk-ingestion handler (`pkg/api/api.go`).

The Go source is shallowly embedded below:
* HTTP status codes become `Int` constants (Go `int`).
* The two 100-slot odds arrays (`ActionOdds`, `MethodOdds`) become
  `List Int` values.  `UpdateOdds` is modelled with Go machine-integer
  semantics: its percentage parameters are `uint` (64-bit) values, the
  validation converts the wrapping uint sum through `int` (so sums at or
  above 2^63 reinterpret as negative and wrongly pass the check), and the
  fill loops mutate the arrays slot by slot, panicking with
  index-out-of-range — arrays partially rebuilt — when a count exceeds
  the remaining slots.
* The body of a bulk request is a list of scanner lines.  A line is either
  blank, a line whose bytes parse as a JSON object with a given list of
  key/value entries, or a non-empty line that does not parse as a JSON
  object (`Line.bad`).
* `rand.Intn(100)` draws are modelled by an oracle `rng : Nat → Fin 100`
  together with an index of the next draw to consume, threaded through the
  processing state, so that "the sampler was consulted k times" is the
  statement that the index advanced by k.
* The OpenTelemetry counters touched by the bulk path become a record of
  `Nat` counters; `updateMetrics` is translated switch-case for switch-case.
* The mutating `Bulk` handler becomes a function from the handler
  configuration, the draw oracle, the incoming counter values and the body
  lines to a `BulkResult`: the early too-large return, the abort on a
  malformed action line (HTTP 500 plus a diagnostic body), or the normal
  completion carrying the `BulkResponse`.
* The request-history ring (`recordRequest` / `History`) becomes explicit
  state passing over a list of optional records plus the cursor.
-/

namespace MockES

/-- HTTP 200, `http.StatusOK`. -/
def StatusOK : Int := 200

/-- HTTP 409, `http.StatusConflict`. -/
def StatusConflict : Int := 409

/-- HTTP 429, `http.StatusTooManyRequests`. -/
def StatusTooManyRequests : Int := 429

/-- HTTP 406, `http.StatusNotAcceptable`. -/
def StatusNotAcceptable : Int := 406

/-- HTTP 413, `http.StatusRequestEntityTooLarge`. -/
def StatusRequestEntityTooLarge : Int := 413

/-- HTTP 500, `http.StatusInternalServerError`. -/
def StatusInternalServerError : Int := 500

/-- `Action` from api.go: the verb of a bulk action line together with its
raw metadata value. -/
structure Action where
  Action : String
  Meta : String
deriving DecidableEq

/-- One scanner line of a bulk request body.  `obj raw kvs` is a non-empty
line whose bytes `raw` decode (via `json.Unmarshal` into
`map[string]json.RawMessage`) to an object with entries `kvs`; `bad raw` is
a non-empty line that does not decode to a JSON object; `blank` is an empty
line. -/
inductive Line where
  | blank
  | obj (raw : String) (kvs : List (String × String))
  | bad (raw : String)
deriving DecidableEq

/-- The raw bytes of a line, as returned by `scanner.Bytes()`. -/
def Line.raw : Line → String
  | .blank => ""
  | .obj r _ => r
  | .bad r => r

/-- Whether `len(scanner.Bytes()) == 0` for this line. -/
def Line.isBlank : Line → Bool
  | .blank => true
  | _ => false

/-- `parseAction` from api.go: unmarshal the line into a string-keyed map,
fail unless it has exactly one key, and return that key as the verb with
its value as the metadata. -/
def parseAction (l : Line) : Except String Action :=
  match l with
  | .blank => Except.error ("error unmarshal: unexpected end of JSON input")
  | .bad r => Except.error ("error unmarshal: " ++ r)
  | .obj _ kvs =>
    match kvs with
    | [(k, v)] => Except.ok ⟨k, v⟩
    | _ => Except.error
        ("error, unexpected number of keys: got " ++ toString kvs.length ++ ", it should be 1")

/-- The counters of `metrics.go` that the bulk path touches (Go
`Int64Counter`s are monotone, modelled as `Nat`). -/
structure Metrics where
  bulkCreateTotal : Nat
  bulkCreateTooLarge : Nat
  bulkCreateOk : Nat
  bulkCreateDuplicate : Nat
  bulkCreateTooMany : Nat
  bulkCreateNonIndex : Nat
  bulkIndexTotal : Nat
  bulkUpdateTotal : Nat
  bulkDeleteTotal : Nat
deriving DecidableEq

/-- All counters zero. -/
def Metrics.zero : Metrics := ⟨0, 0, 0, 0, 0, 0, 0, 0, 0⟩

/-- `updateMetrics` from api.go: switch on the action verb, incrementing
the verb's counter; for `create`, switch on the status, and report
`isErr = true` exactly for the three injected failure statuses. -/
def updateMetrics (m : Metrics) (action : String) (actionStatus : Int) : Metrics × Bool :=
  match action with
  | "index" => ({ m with bulkIndexTotal := m.bulkIndexTotal + 1 }, false)
  | "create" =>
    if actionStatus = StatusOK then
      ({ m with bulkCreateOk := m.bulkCreateOk + 1 }, false)
    else if actionStatus = StatusConflict then
      ({ m with bulkCreateDuplicate := m.bulkCreateDuplicate + 1 }, true)
    else if actionStatus = StatusTooManyRequests then
      ({ m with bulkCreateTooMany := m.bulkCreateTooMany + 1 }, true)
    else if actionStatus = StatusNotAcceptable then
      ({ m with bulkCreateNonIndex := m.bulkCreateNonIndex + 1 }, true)
    else (m, false)
  | "update" => ({ m with bulkUpdateTotal := m.bulkUpdateTotal + 1 }, false)
  | "delete" => ({ m with bulkDeleteTotal := m.bulkDeleteTotal + 1 }, false)
  | _ => (m, false)

/-- One entry of `BulkResponse.Items`: in the Go code,
`map[string]any{action.Action: map[string]any{"status": actionStatus}}`. -/
structure Item where
  verb : String
  status : Int
deriving DecidableEq

/-- `BulkResponse` from api.go (the serialized reply of a completed bulk
request). -/
structure BulkResponse where
  Errors : Bool
  Items : List Item
deriving DecidableEq

/-- The mutable state threaded through the scan loop of `Bulk`: the shared
counters, the accumulated `errors` flag and `items` of the `BulkResponse`
under construction, and the index of the next random draw the handler will
consume from the oracle. -/
structure BulkState where
  metrics : Metrics
  errors : Bool
  items : List Item
  randIdx : Nat
deriving DecidableEq

/-- Process one parsed action with its (optional) raw document payload:
choose the action status (deterministic callback, or an action-odds draw
for `create` only, or the zero value), build the per-action item when one
is produced, run `updateMetrics`, and accumulate `errors` and `items`. -/
def stepAction (det : Option (Action → Option String → Int)) (actionOdds : List Int)
    (rng : Nat → Fin 100) (st : BulkState) (a : Action) (payload : Option String) : BulkState :=
  let res : Int × Option Item × Nat :=
    match det with
    | some f =>
      let s := f a payload
      (s, some ⟨a.Action, s⟩, st.randIdx)
    | none =>
      if a.Action = "create" then
        let s := actionOdds.getD (rng st.randIdx).val 0
        (s, some ⟨a.Action, s⟩, st.randIdx + 1)
      else (0, none, st.randIdx)
  let mr := updateMetrics st.metrics a.Action res.1
  { metrics := mr.1
    errors := st.errors || mr.2
    items := st.items ++ res.2.1.toList
    randIdx := res.2.2 }

/-- The scan loop of `Bulk`: skip blank lines; parse each non-blank line as
an action, aborting the whole request on a parse failure; for every verb
except `delete` consume the immediately following line (when present) as
the document payload; process the action and continue.  `Sum.inl` is normal
exhaustion of the stream, `Sum.inr` the abort with the parse error
message. -/
def processLines (det : Option (Action → Option String → Int)) (actionOdds : List Int)
    (rng : Nat → Fin 100) : List Line → BulkState → BulkState ⊕ (BulkState × String)
  | [], st => Sum.inl st
  | [l], st =>
    if l.isBlank then Sum.inl st
    else
      match parseAction l with
      | Except.error e => Sum.inr (st, e)
      | Except.ok a => Sum.inl (stepAction det actionOdds rng st a none)
  | l :: d :: rest2, st =>
    if l.isBlank then processLines det actionOdds rng (d :: rest2) st
    else
      match parseAction l with
      | Except.error e => Sum.inr (st, e)
      | Except.ok a =>
        if a.Action = "delete" then
          processLines det actionOdds rng (d :: rest2) (stepAction det actionOdds rng st a none)
        else
          processLines det actionOdds rng rest2 (stepAction det actionOdds rng st a (some d.raw))

/-- The two odds tables of `APIHandler` (`ActionOdds`, `MethodOdds`,
each a 100-slot array in the Go source). -/
structure OddsTables where
  ActionOdds : List Int
  MethodOdds : List Int
deriving DecidableEq

/-- Go zero value of the two arrays: 100 zero slots each. -/
def zeroTables : OddsTables :=
  ⟨List.replicate 100 0, List.replicate 100 0⟩

/-- The closed-form table layout the `UpdateOdds` fill loops produce for
in-range percentages: `percentDuplicate` conflict slots, then
`percentTooMany` too-many slots, then `percentNonIndex` not-acceptable
slots, then success up to slot 100.  Used for concrete handlers and as the
target of the layout proofs. -/
def fillActionOdds (percentDuplicate percentTooMany percentNonIndex : Nat) : List Int :=
  List.replicate percentDuplicate StatusConflict ++
  List.replicate percentTooMany StatusTooManyRequests ++
  List.replicate percentNonIndex StatusNotAcceptable ++
  List.replicate (100 - (percentDuplicate + percentTooMany + percentNonIndex)) StatusOK

/-- The closed-form method-odds layout: `percentTooLarge`
request-entity-too-large slots, then success up to slot 100. -/
def fillMethodOdds (percentTooLarge : Nat) : List Int :=
  List.replicate percentTooLarge StatusRequestEntityTooLarge ++
  List.replicate (100 - percentTooLarge) StatusOK

/-- Go's `int(x)` conversion of a `uint` (64-bit) value: reduce modulo
2^64 (uint arithmetic wraps) and reinterpret the bit pattern as a signed
two's-complement 64-bit integer, so values at or above 2^63 come out
negative. -/
def intOfUint (x : Nat) : Int :=
  if x % 2 ^ 64 < 2 ^ 63 then ((x % 2 ^ 64 : Nat) : Int)
  else ((x % 2 ^ 64 : Nat) : Int) - 2 ^ 64

/-- One counting fill loop of `UpdateOdds`
(`for i := uint(0); i < count; i++ { arr[n] = x; n++ }`): write `count`
copies of `x` at successive slots from cursor `n`.  `Sum.inl` returns the
written array with the final cursor; `Sum.inr` is the index-out-of-range
panic Go raises when the cursor passes the end of the array with
iterations remaining, carrying the array as mutated up to the panic. -/
def fillSlots (x : Int) : List Int → Nat → Nat → (List Int × Nat) ⊕ List Int
  | arr, n, 0 => Sum.inl (arr, n)
  | arr, n, c + 1 =>
    if n < arr.length then fillSlots x (arr.set n x) (n + 1) c
    else Sum.inr arr

/-- Write `c` copies of `x` at successive slots from cursor `n` (never
past the end, as callers bound `c` by the remaining length). -/
def fillUpTo (x : Int) : List Int → Nat → Nat → List Int
  | arr, _, 0 => arr
  | arr, n, c + 1 => fillUpTo x (arr.set n x) (n + 1) c

/-- The closing fill loop of `UpdateOdds`
(`for ; n < len(arr); n++ { arr[n] = x }`), its iteration count
`arr.length - n` made explicit so the recursion is structural. -/
def fillRemainder (x : Int) (arr : List Int) (n : Nat) : List Int :=
  fillUpTo x arr n (arr.length - n)

/-- How a call to `UpdateOdds` ends: an error return (tables untouched), a
runtime index-out-of-range panic part-way through the fill loops (carrying
the tables as mutated up to the panic), or normal completion. -/
inductive UpdateResult where
  | err (msg : String)
  | panicked (tables : OddsTables)
  | ok (tables : OddsTables)
deriving DecidableEq

/-- Whether the call returned the validation error. -/
def UpdateResult.isErr : UpdateResult → Bool
  | .err _ => true
  | _ => false

/-- `UpdateOdds` from api.go.  The arguments are the values of the Go
`uint` (64-bit) parameters.  Validation compares
`int(percentDuplicate+percentTooMany+percentNonIndex)` — the signed
reinterpretation of the wrapping uint sum — and `int(percentTooLarge)`
against `len(h.ActionOdds)` / `len(h.MethodOdds)`, i.e. the constant 100
of the array type `[100]int`; on failure it returns before touching
either array.  Otherwise the fill loops run in source order: the three
counting loops over `ActionOdds`, its closing success fill, then the
counting loop over `MethodOdds` and its closing fill.  A counting loop
whose count exceeds the remaining slots (possible when the signed check
passed on a wrapped-negative sum) panics with the arrays as mutated so
far. -/
def UpdateOdds (t : OddsTables) (percentDuplicate percentTooMany percentNonIndex
    percentTooLarge : Nat) : UpdateResult :=
  if intOfUint (percentDuplicate + percentTooMany + percentNonIndex) > 100 then
    UpdateResult.err ("total of percents cannot be greater than 100")
  else if intOfUint percentTooLarge > 100 then
    UpdateResult.err ("percent TooLarge cannot be greater than 100")
  else
    match fillSlots StatusConflict t.ActionOdds 0 percentDuplicate with
    | Sum.inr a => UpdateResult.panicked ⟨a, t.MethodOdds⟩
    | Sum.inl (a1, n1) =>
      match fillSlots StatusTooManyRequests a1 n1 percentTooMany with
      | Sum.inr a => UpdateResult.panicked ⟨a, t.MethodOdds⟩
      | Sum.inl (a2, n2) =>
        match fillSlots StatusNotAcceptable a2 n2 percentNonIndex with
        | Sum.inr a => UpdateResult.panicked ⟨a, t.MethodOdds⟩
        | Sum.inl (a3, n3) =>
          match fillSlots StatusRequestEntityTooLarge t.MethodOdds 0 percentTooLarge with
          | Sum.inr mo => UpdateResult.panicked ⟨fillRemainder StatusOK a3 n3, mo⟩
          | Sum.inl (m1, k1) =>
            UpdateResult.ok
              ⟨fillRemainder StatusOK a3 n3, fillRemainder StatusOK m1 k1⟩

/-- The tables as read after an `UpdateOdds` call, however it ended: on an
error return the receiver was never touched, on a panic it holds the
partially rebuilt tables, on success the new ones. -/
def oddsAfterUpdate (t : OddsTables) (percentDuplicate percentTooMany percentNonIndex
    percentTooLarge : Nat) : OddsTables :=
  match UpdateOdds t percentDuplicate percentTooMany percentNonIndex percentTooLarge with
  | UpdateResult.err _ => t
  | UpdateResult.panicked t2 => t2
  | UpdateResult.ok t2 => t2

/-- The part of `APIHandler` the bulk path reads: the optional
deterministic decision function and the two odds tables. -/
structure APIHandler where
  det : Option (Action → Option String → Int)
  tables : OddsTables

/-- `NewAPIHandler` from api.go (probabilistic constructor): starts from
zero-valued arrays and calls `UpdateOdds`; construction fails (a panic,
modelled as `none`) both when validation rejects the percentages and when
the fill loops panic. -/
def NewAPIHandler (percentDuplicate percentTooMany percentNonIndex
    percentTooLarge : Nat) : Option APIHandler :=
  match UpdateOdds zeroTables percentDuplicate percentTooMany percentNonIndex percentTooLarge with
  | UpdateResult.ok t => some ⟨none, t⟩
  | _ => none

/-- `NewDeterministicAPIHandler` from api.go: installs the decision
function and never calls `UpdateOdds`, so both odds arrays keep their Go
zero value. -/
def NewDeterministicAPIHandler (f : Action → Option String → Int) : APIHandler :=
  ⟨some f, zeroTables⟩

/-- The diagnostic body written by `Bulk` when an action line fails to
parse. -/
def diagBody (e : String) : String :=
  "\x7b\"error\": \"failed to parse action: " ++ e ++ "\"\x7d"

/-- Result of one call to the `Bulk` handler.
`tooLarge st status`: the request-level draw hit 413, the status was
written and the handler returned with an empty body.
`parseError st status body`: an action line failed to parse; HTTP 500 and
the diagnostic body were written.
`ok st resp`: the stream was exhausted and `resp` was serialized as the
reply.  In every case `st` holds the counters (and items/flags accumulated
so far) at the moment the handler returned. -/
inductive BulkResult where
  | tooLarge (st : BulkState) (status : Int)
  | parseError (st : BulkState) (status : Int) (body : String)
  | ok (st : BulkState) (resp : BulkResponse)
deriving DecidableEq

/-- The serialized `BulkResponse`, when the handler produced one. -/
def BulkResult.response? : BulkResult → Option BulkResponse
  | .ok _ resp => some resp
  | _ => none

/-- The final counter values of a `BulkResult`. -/
def BulkResult.metrics : BulkResult → Metrics
  | .tooLarge st _ => st.metrics
  | .parseError st _ _ => st.metrics
  | .ok st _ => st.metrics

/-- `Bulk` from api.go, for a request body that decodes to `lines`:
increment the request total, draw the request-level method status and
return 413 immediately when it is the too-large status; otherwise scan the
body, and either abort with 500 on a malformed action line or serialize
the accumulated `BulkResponse`.  `m` is the counters' value when the
request arrives; the draw oracle `rng` supplies every `rand.Intn(100)`
result in order, the request-level draw being draw 0. -/
def Bulk (h : APIHandler) (rng : Nat → Fin 100) (m : Metrics) (lines : List Line) : BulkResult :=
  let m1 := { m with bulkCreateTotal := m.bulkCreateTotal + 1 }
  let methodStatus := h.tables.MethodOdds.getD (rng 0).val 0
  if methodStatus = StatusRequestEntityTooLarge then
    BulkResult.tooLarge
      ⟨{ m1 with bulkCreateTooLarge := m1.bulkCreateTooLarge + 1 }, false, [], 1⟩ methodStatus
  else
    match processLines h.det h.tables.ActionOdds rng lines ⟨m1, false, [], 1⟩ with
    | Sum.inl st => BulkResult.ok st ⟨st.errors, st.items⟩
    | Sum.inr (st, e) => BulkResult.parseError st StatusInternalServerError (diagBody e)

/-- The actions the scan loop of `Bulk` successfully parses, each paired
with the raw payload line it consumes (none for `delete`, or when the
stream ends right after the action line); the list stops at the first
malformed action line. -/
def parsedActionsP : List Line → List (Action × Option String)
  | [] => []
  | [l] =>
    if l.isBlank then []
    else
      match parseAction l with
      | Except.error _ => []
      | Except.ok a => [(a, none)]
  | l :: d :: rest2 =>
    if l.isBlank then parsedActionsP (d :: rest2)
    else
      match parseAction l with
      | Except.error _ => []
      | Except.ok a =>
        if a.Action = "delete" then (a, none) :: parsedActionsP (d :: rest2)
        else (a, some d.raw) :: parsedActionsP rest2

/-- The successfully parsed actions of a bulk body, in input order. -/
def parsedActions (lines : List Line) : List Action :=
  (parsedActionsP lines).map Prod.fst

/-- The parse-failure message the scan loop of `Bulk` aborts with, if any:
`some e` exactly when scanning `lines` reaches a malformed line at an
action position. -/
def scanAborts : List Line → Option String
  | [] => none
  | [l] =>
    if l.isBlank then none
    else
      match parseAction l with
      | Except.error e => some e
      | Except.ok _ => none
  | l :: d :: rest2 =>
    if l.isBlank then scanAborts (d :: rest2)
    else
      match parseAction l with
      | Except.error e => some e
      | Except.ok a =>
        if a.Action = "delete" then scanAborts (d :: rest2)
        else scanAborts rest2

/-- `RequestRecord` from api.go. -/
structure RequestRecord where
  Method : String
  URI : String
  Body : String
deriving DecidableEq

/-- The request-history ring of `APIHandler`: the `history` slice (length
= capacity, `nil` entries modelled as `none`) and the write cursor
`historyIndex`. -/
structure HistoryState where
  history : List (Option RequestRecord)
  historyIndex : Nat
deriving DecidableEq

/-- `make([]*RequestRecord, historyCap)` with cursor 0. -/
def initHistory (cap : Nat) : HistoryState :=
  ⟨List.replicate cap none, 0⟩

/-- `recordRequest` from api.go: a no-op when the capacity is zero,
otherwise store the record at the cursor and advance the cursor modulo the
capacity. -/
def recordRequest (st : HistoryState) (rec : RequestRecord) : HistoryState :=
  if st.history.length = 0 then st
  else
    ⟨st.history.set st.historyIndex (some rec), (st.historyIndex + 1) % st.history.length⟩

/-- The `History` handler's snapshot from api.go: walk the `history` slice
in index order and keep the non-nil entries. -/
def History (st : HistoryState) : List RequestRecord :=
  st.history.filterMap id

/-- Follows the spec's words (for comparison with `History`): the snapshot
the spec describes, "all currently populated slots in write order starting
from the oldest still-present record", i.e. the last `cap` records in the
order they were written. -/
def snapshotSpecOrdered (cap : Nat) (writes : List RequestRecord) : List RequestRecord :=
  writes.drop (writes.length - cap)

/-- The state the scan loop ends in, whether it exhausted the stream or
aborted on a malformed line. -/
def outState : BulkState ⊕ (BulkState × String) → BulkState
  | Sum.inl st => st
  | Sum.inr (st, _) => st

/-- The parse-error message the scan loop aborted with, if it aborted. -/
def outErr : BulkState ⊕ (BulkState × String) → Option String
  | Sum.inl _ => none
  | Sum.inr (_, e) => some e

/-- Whether an action produces a response item in `Bulk`: every action in
deterministic mode, exactly the `create` actions in probabilistic mode. -/
def keepsItem (det : Option (Action → Option String → Int)) (a : Action) : Bool :=
  det.isSome || (a.Action == "create")

/-- The response items a failure of which sets the `errors` flag: a
`create` item whose status is one of the three injected failure codes
(exactly the statuses for which `updateMetrics` reports `isErr`). -/
def failItem (it : Item) : Prop :=
  it.verb = "create" ∧
    (it.status = StatusConflict ∨ it.status = StatusTooManyRequests ∨
      it.status = StatusNotAcceptable)

/-- The invariant tying the accumulated `errors` flag to the accumulated
items. -/
def errorsInv (st : BulkState) : Prop :=
  st.errors = true ↔ ∃ it ∈ st.items, failItem it

/-- How many of the given actions carry the given verb. -/
def countVerb (v : String) (l : List Action) : Nat :=
  (l.filter fun a => a.Action == v).length

/-- The item the deterministic decision function `f` yields for an action
and its payload. -/
def detItem (f : Action → Option String → Int) (p : Action × Option String) : Item :=
  ⟨p.1.Action, f p.1 p.2⟩

/-- A draw oracle that always returns slot 0. -/
def rng0 : Nat → Fin 100 := fun _ => (0 : Fin 100)

/-- Decision function used as a concrete input: conflict for `index`
actions, success otherwise. -/
def fIdxConflict : Action → Option String → Int := fun a _ =>
  if a.Action = "index" then StatusConflict else StatusOK

/-- Decision function used as a concrete input: a fixed code for `create`,
a different fixed code for `index`, success otherwise. -/
def fMixed : Action → Option String → Int := fun a _ =>
  if a.Action = "create" then StatusConflict
  else if a.Action = "index" then StatusNotAcceptable
  else StatusOK

/-- A bulk body holding a single `index` action with its document line. -/
def linesIndex : List Line :=
  [Line.obj ("a1") [("index", "m1")], Line.obj ("d1") [("doc", "x")]]

/-- A bulk body holding a single `delete` action (no document line). -/
def linesDelete : List Line :=
  [Line.obj ("a2") [("delete", "m2")]]

/-- A bulk body holding a single `create` action with its document line. -/
def linesCreate : List Line :=
  [Line.obj ("a3") [("create", "m3")], Line.obj ("d3") [("doc", "y")]]

/-- A mixed bulk body: one `create` action and one `index` action, each
with a document line. -/
def linesMixed : List Line :=
  linesCreate ++ linesIndex

/-- A bulk body whose third line is a malformed action line (two keys),
after a complete `index` action/document pair. -/
def linesMalformed : List Line :=
  linesIndex ++ [Line.obj ("b1") [("create", "m"), ("index", "m")]]

/-- Probabilistic handler with all percentages zero (every draw succeeds). -/
def probHandlerAllOk : APIHandler :=
  ⟨none, ⟨fillActionOdds 0 0 0, fillMethodOdds 0⟩⟩

/-- Probabilistic handler with 100% duplicates for `create` actions. -/
def probHandlerAllDup : APIHandler :=
  ⟨none, ⟨fillActionOdds 100 0 0, fillMethodOdds 0⟩⟩

/-- Probabilistic handler with a 100% too-large request-level outcome. -/
def probHandlerAllTooLarge : APIHandler :=
  ⟨none, ⟨fillActionOdds 0 0 0, fillMethodOdds 100⟩⟩

/-- Concrete request records for the history-ring facts. -/
def recA : RequestRecord := ⟨"POST", "/_bulk", "a"⟩

/-- Second concrete request record. -/
def recB : RequestRecord := ⟨"POST", "/_bulk", "b"⟩

/-- Third concrete request record. -/
def recC : RequestRecord := ⟨"POST", "/_bulk", "c"⟩

/-- A draw oracle that always returns slot 1. -/
def rng1 : Nat → Fin 100 := fun _ => (1 : Fin 100)


theorem updateMetrics_isErr (m : Metrics) (v : String) (s : Int) :
    (updateMetrics m v s).2 = true ↔
      (v = "create" ∧ (s = StatusConflict ∨ s = StatusTooManyRequests ∨
        s = StatusNotAcceptable)) := by
  unfold updateMetrics
  split <;> simp_all <;> split_ifs <;>
    simp_all [StatusOK, StatusConflict, StatusTooManyRequests, StatusNotAcceptable] <;> omega

theorem updateMetrics_indexTotal (m : Metrics) (v : String) (s : Int) :
    (updateMetrics m v s).1.bulkIndexTotal =
      m.bulkIndexTotal + (if v = "index" then 1 else 0) := by
  unfold updateMetrics
  split <;> simp_all <;> split_ifs <;> simp_all

theorem updateMetrics_updateTotal (m : Metrics) (v : String) (s : Int) :
    (updateMetrics m v s).1.bulkUpdateTotal =
      m.bulkUpdateTotal + (if v = "update" then 1 else 0) := by
  unfold updateMetrics
  split <;> simp_all <;> split_ifs <;> simp_all

theorem updateMetrics_deleteTotal (m : Metrics) (v : String) (s : Int) :
    (updateMetrics m v s).1.bulkDeleteTotal =
      m.bulkDeleteTotal + (if v = "delete" then 1 else 0) := by
  unfold updateMetrics
  split <;> simp_all <;> split_ifs <;> simp_all

theorem updateMetrics_unknown (m : Metrics) (v : String) (s : Int)
    (h1 : v ≠ "index") (h2 : v ≠ "create") (h3 : v ≠ "update") (h4 : v ≠ "delete") :
    updateMetrics m v s = (m, false) := by
  unfold updateMetrics
  split <;> simp_all


theorem stepAction_items_verbs (det : Option (Action → Option String → Int)) (odds : List Int)
    (rng : Nat → Fin 100) (st : BulkState) (a : Action) (p : Option String) :
    (stepAction det odds rng st a p).items.map Item.verb =
      st.items.map Item.verb ++ (if keepsItem det a then [a.Action] else []) := by
  unfold stepAction keepsItem
  cases det <;> simp <;> split_ifs <;> simp_all

theorem stepAction_metrics (det : Option (Action → Option String → Int)) (odds : List Int)
    (rng : Nat → Fin 100) (st : BulkState) (a : Action) (p : Option String) :
    (stepAction det odds rng st a p).metrics.bulkIndexTotal =
        st.metrics.bulkIndexTotal + (if a.Action = "index" then 1 else 0) ∧
    (stepAction det odds rng st a p).metrics.bulkUpdateTotal =
        st.metrics.bulkUpdateTotal + (if a.Action = "update" then 1 else 0) ∧
    (stepAction det odds rng st a p).metrics.bulkDeleteTotal =
        st.metrics.bulkDeleteTotal + (if a.Action = "delete" then 1 else 0) := by
  unfold stepAction
  cases det <;>
    simp [updateMetrics_indexTotal, updateMetrics_updateTotal, updateMetrics_deleteTotal]

theorem stepAction_errorsInv (det : Option (Action → Option String → Int)) (odds : List Int)
    (rng : Nat → Fin 100) (st : BulkState) (a : Action) (p : Option String)
    (h : errorsInv st) : errorsInv (stepAction det odds rng st a p) := by
  unfold errorsInv at h ⊢
  unfold stepAction
  cases det with
  | none =>
    by_cases hc : a.Action = "create" <;>
      simp_all [updateMetrics_isErr, failItem, or_and_right, exists_or]
  | some f =>
    simp_all [updateMetrics_isErr, failItem, or_and_right, exists_or]

theorem stepAction_randIdx_none (odds : List Int) (rng : Nat → Fin 100) (st : BulkState)
    (a : Action) (p : Option String) :
    (stepAction none odds rng st a p).randIdx =
      st.randIdx + (if a.Action = "create" then 1 else 0) := by
  unfold stepAction
  split_ifs <;> simp_all

theorem stepAction_det_items (f : Action → Option String → Int) (odds : List Int)
    (rng : Nat → Fin 100) (st : BulkState) (a : Action) (p : Option String) :
    (stepAction (some f) odds rng st a p).items = st.items ++ [detItem f (a, p)] := by
  simp [stepAction, detItem]

theorem stepAction_rng_irrel (f : Action → Option String → Int) (odds : List Int)
    (rng rng2 : Nat → Fin 100) (st : BulkState) (a : Action) (p : Option String) :
    stepAction (some f) odds rng st a p = stepAction (some f) odds rng2 st a p := by
  simp [stepAction]

theorem stepAction_randIdx_det (f : Action → Option String → Int) (odds : List Int)
    (rng : Nat → Fin 100) (st : BulkState) (a : Action) (p : Option String) :
    (stepAction (some f) odds rng st a p).randIdx = st.randIdx := by
  simp [stepAction]


theorem outErr_processLines (det : Option (Action → Option String → Int)) (odds : List Int)
    (rng : Nat → Fin 100) (lines : List Line) (st : BulkState) :
    outErr (processLines det odds rng lines st) = scanAborts lines := by
  induction lines, st using processLines.induct det odds rng with
  | _ => simp_all [processLines, scanAborts, outErr]

theorem processLines_items_verbs (det : Option (Action → Option String → Int)) (odds : List Int)
    (rng : Nat → Fin 100) (lines : List Line) (st : BulkState) :
    (outState (processLines det odds rng lines st)).items.map Item.verb =
      st.items.map Item.verb ++
        ((parsedActions lines).filter (keepsItem det)).map Action.Action := by
  induction lines, st using processLines.induct det odds rng with
  | _ =>
    simp_all [processLines, parsedActions, parsedActionsP, outState, stepAction_items_verbs,
      List.filter_cons]
    try (split_ifs <;> simp_all)

theorem processLines_errorsInv (det : Option (Action → Option String → Int)) (odds : List Int)
    (rng : Nat → Fin 100) (lines : List Line) (st : BulkState) (h : errorsInv st) :
    errorsInv (outState (processLines det odds rng lines st)) := by
  induction lines, st using processLines.induct det odds rng with
  | _ => simp_all [processLines, outState, stepAction_errorsInv]

theorem processLines_metrics (det : Option (Action → Option String → Int)) (odds : List Int)
    (rng : Nat → Fin 100) (lines : List Line) (st : BulkState) :
    (outState (processLines det odds rng lines st)).metrics.bulkIndexTotal =
        st.metrics.bulkIndexTotal + countVerb ("index") (parsedActions lines) ∧
    (outState (processLines det odds rng lines st)).metrics.bulkUpdateTotal =
        st.metrics.bulkUpdateTotal + countVerb ("update") (parsedActions lines) ∧
    (outState (processLines det odds rng lines st)).metrics.bulkDeleteTotal =
        st.metrics.bulkDeleteTotal + countVerb ("delete") (parsedActions lines) := by
  induction lines, st using processLines.induct det odds rng with
  | _ =>
    simp_all [processLines, parsedActions, parsedActionsP, outState, countVerb,
      stepAction_metrics, List.filter_cons]
    try omega
    try (split_ifs <;> simp_all <;> try omega)

theorem processLines_randIdx_none (odds : List Int) (rng : Nat → Fin 100)
    (lines : List Line) (st : BulkState) :
    (outState (processLines none odds rng lines st)).randIdx =
      st.randIdx + countVerb ("create") (parsedActions lines) := by
  induction lines, st using processLines.induct none odds rng with
  | _ =>
    simp_all [processLines, parsedActions, parsedActionsP, outState, countVerb,
      stepAction_randIdx_none, List.filter_cons]
    try omega
    try (split_ifs <;> simp_all <;> try omega)

theorem processLines_det_items (f : Action → Option String → Int) (odds : List Int)
    (rng : Nat → Fin 100) (lines : List Line) (st : BulkState) :
    (outState (processLines (some f) odds rng lines st)).items =
      st.items ++ (parsedActionsP lines).map (detItem f) := by
  induction lines, st using processLines.induct (some f) odds rng with
  | _ => simp_all [processLines, parsedActionsP, outState, stepAction_det_items]

theorem processLines_rng_irrel (f : Action → Option String → Int) (odds : List Int)
    (rng rng2 : Nat → Fin 100) (lines : List Line) (st : BulkState) :
    processLines (some f) odds rng lines st = processLines (some f) odds rng2 lines st := by
  induction lines, st using processLines.induct (some f) odds rng with
  | _ =>
    simp_all [processLines]
    try rw [stepAction_rng_irrel f odds rng rng2]


theorem Bulk_eq_ok (h : APIHandler) (rng : Nat → Fin 100) (m : Metrics) (lines : List Line)
    (st : BulkState) (resp : BulkResponse) :
    Bulk h rng m lines = BulkResult.ok st resp ↔
      (¬ h.tables.MethodOdds.getD (rng 0).val 0 = StatusRequestEntityTooLarge ∧
        processLines h.det h.tables.ActionOdds rng lines
          ⟨{ m with bulkCreateTotal := m.bulkCreateTotal + 1 }, false, [], 1⟩ = Sum.inl st ∧
        resp = ⟨st.errors, st.items⟩) := by
  simp only [Bulk]
  by_cases hm : h.tables.MethodOdds.getD (rng 0).val 0 = StatusRequestEntityTooLarge
  · rw [if_pos hm]
    constructor
    · intro hh
      exact BulkResult.noConfusion hh
    · intro hh
      exact absurd hm hh.1
  · rw [if_neg hm]
    cases hpl : processLines h.det h.tables.ActionOdds rng lines
        ⟨{ m with bulkCreateTotal := m.bulkCreateTotal + 1 }, false, [], 1⟩ with
    | inl st2 =>
      constructor
      · intro hh
        cases hh
        exact ⟨hm, rfl, rfl⟩
      · intro hh
        rcases hh with ⟨-, h2, h3⟩
        cases h2
        cases h3
        rfl
    | inr p =>
      cases p with
      | mk st2 e =>
        constructor
        · intro hh
          exact BulkResult.noConfusion hh
        · intro hh
          rcases hh with ⟨-, h2, -⟩
          exact Sum.noConfusion h2

theorem Bulk_eq_parseError (h : APIHandler) (rng : Nat → Fin 100) (m : Metrics)
    (lines : List Line) (st : BulkState) (status : Int) (body : String) :
    Bulk h rng m lines = BulkResult.parseError st status body ↔
      (¬ h.tables.MethodOdds.getD (rng 0).val 0 = StatusRequestEntityTooLarge ∧
        ∃ e, processLines h.det h.tables.ActionOdds rng lines
            ⟨{ m with bulkCreateTotal := m.bulkCreateTotal + 1 }, false, [], 1⟩ =
              Sum.inr (st, e) ∧
          status = StatusInternalServerError ∧ body = diagBody e) := by
  simp only [Bulk]
  by_cases hm : h.tables.MethodOdds.getD (rng 0).val 0 = StatusRequestEntityTooLarge
  · rw [if_pos hm]
    constructor
    · intro hh
      exact BulkResult.noConfusion hh
    · intro hh
      exact absurd hm hh.1
  · rw [if_neg hm]
    cases hpl : processLines h.det h.tables.ActionOdds rng lines
        ⟨{ m with bulkCreateTotal := m.bulkCreateTotal + 1 }, false, [], 1⟩ with
    | inl st2 =>
      constructor
      · intro hh
        exact BulkResult.noConfusion hh
      · intro hh
        rcases hh with ⟨-, e2, h2, -⟩
        exact Sum.noConfusion h2
    | inr p =>
      cases p with
      | mk st2 e =>
        constructor
        · intro hh
          cases hh
          exact ⟨hm, e, rfl, rfl, rfl⟩
        · intro hh
          rcases hh with ⟨-, e2, h2, h3, h4⟩
          cases h2
          cases h3
          cases h4
          rfl


/-- Claim C1, amended: for every bulk request that completes, the Errors
field is true iff at least one response item is a `create` item whose
status is one of the three injected failure codes (409, 429, 406);
non-`create` items and other statuses never set it. -/
theorem bulk_errors_iff_create_failure_item (h : APIHandler) (rng : Nat → Fin 100)
    (m : Metrics) (lines : List Line) (st : BulkState) (resp : BulkResponse)
    (hok : Bulk h rng m lines = BulkResult.ok st resp) :
    resp.Errors = true ↔ ∃ it ∈ resp.Items, failItem it := by
  rw [Bulk_eq_ok] at hok
  rcases hok with ⟨-, hpl, hresp⟩
  have hinv : errorsInv
      (⟨{ m with bulkCreateTotal := m.bulkCreateTotal + 1 }, false, [], 1⟩ : BulkState) := by
    simp [errorsInv]
  have h2 := processLines_errorsInv h.det h.tables.ActionOdds rng lines _ hinv
  rw [hpl] at h2
  subst hresp
  simpa [outState, errorsInv] using h2

/-- Claim C1 as stated is false on the code: in deterministic mode a
handler returning 409 for an `index` action yields an item whose status is
a non-success code while Errors stays false. -/
theorem bulk_errors_claim_counterexample :
    (Bulk (NewDeterministicAPIHandler fIdxConflict) rng0 Metrics.zero linesIndex).response? =
      some ⟨false, [⟨"index", StatusConflict⟩]⟩ ∧
    ¬ ((false = true) ↔ ∃ it ∈ [Item.mk ("index") StatusConflict], ¬ it.status = StatusOK) := by
  exact ⟨by decide, by decide⟩

/-- Claim C2, amended: the response items are, in input order, one per
parsed action that produced an outcome: every action in deterministic
mode, exactly the `create` actions in probabilistic mode. -/
theorem bulk_items_one_per_kept_action (h : APIHandler) (rng : Nat → Fin 100)
    (m : Metrics) (lines : List Line) (st : BulkState) (resp : BulkResponse)
    (hok : Bulk h rng m lines = BulkResult.ok st resp) :
    resp.Items.map Item.verb =
      ((parsedActions lines).filter (keepsItem h.det)).map Action.Action := by
  rw [Bulk_eq_ok] at hok
  rcases hok with ⟨-, hpl, hresp⟩
  have h2 := processLines_items_verbs h.det h.tables.ActionOdds rng lines
    ⟨{ m with bulkCreateTotal := m.bulkCreateTotal + 1 }, false, [], 1⟩
  rw [hpl] at h2
  subst hresp
  simpa [outState] using h2

/-- Claim C2 as stated is false on the code: in probabilistic mode a
request with one successfully parsed `delete` action yields zero items,
not one item per parsed action. -/
theorem bulk_items_per_action_counterexample :
    (Bulk probHandlerAllOk rng0 Metrics.zero linesDelete).response? = some ⟨false, []⟩ ∧
    parsedActions linesDelete = [⟨"delete", "m2"⟩] ∧
    ¬ (([] : List Item).length = (parsedActions linesDelete).length) := by
  exact ⟨by decide, by decide, by decide⟩

/-- Claim C3: in probabilistic mode the per-action sampler is consulted
exactly once per `create` action (the draw index advances by the number of
`create` actions beyond the one request-level draw); in particular a
request of only `delete` actions never consults it and never sets the
errors flag. -/
theorem bulk_delete_only_never_samples (tables : OddsTables) (rng : Nat → Fin 100)
    (m : Metrics) (lines : List Line) (st : BulkState) (resp : BulkResponse)
    (hok : Bulk ⟨none, tables⟩ rng m lines = BulkResult.ok st resp) :
    st.randIdx = 1 + countVerb ("create") (parsedActions lines) ∧
    ((∀ a ∈ parsedActions lines, a.Action = "delete") →
      st.randIdx = 1 ∧ resp.Errors = false) := by
  rw [Bulk_eq_ok] at hok
  rcases hok with ⟨-, hpl, hresp⟩
  have hidx := processLines_randIdx_none tables.ActionOdds rng lines
    ⟨{ m with bulkCreateTotal := m.bulkCreateTotal + 1 }, false, [], 1⟩
  rw [hpl] at hidx
  simp only [outState] at hidx
  constructor
  · simpa using hidx
  · intro hdel
    have hcnt : countVerb ("create") (parsedActions lines) = 0 := by
      simp only [countVerb, List.length_eq_zero, List.filter_eq_nil_iff]
      intro a ha
      simp [hdel a ha]
    constructor
    · simp [hcnt] at hidx
      simpa using hidx
    · have hverbs := processLines_items_verbs none tables.ActionOdds rng lines
        ⟨{ m with bulkCreateTotal := m.bulkCreateTotal + 1 }, false, [], 1⟩
      rw [hpl] at hverbs
      simp only [outState] at hverbs
      have hnil : ((parsedActions lines).filter (keepsItem none)).map Action.Action = [] := by
        simp only [List.map_eq_nil_iff, List.filter_eq_nil_iff]
        intro a ha
        simp [keepsItem, hdel a ha]
      rw [hnil] at hverbs
      simp only [List.map_nil, List.nil_append] at hverbs
      have hitems : st.items = [] := by
        simpa [List.map_eq_nil_iff] using hverbs
      have hinv : errorsInv
          (⟨{ m with bulkCreateTotal := m.bulkCreateTotal + 1 }, false, [], 1⟩ : BulkState) := by
        simp [errorsInv]
      have h2 := processLines_errorsInv none tables.ActionOdds rng lines _ hinv
      rw [hpl] at h2
      simp only [outState, errorsInv, hitems] at h2
      subst hresp
      simp only [BulkResponse.mk.injEq]
      simpa using h2


theorem getD_replicate_int (n i : Nat) (x : Int) :
    (List.replicate n x).getD i 0 = (if i < n then x else 0) := by
  simp only [List.getD_eq_getElem?_getD, List.getElem?_replicate]
  split <;> rfl




theorem getElem?_replicate_append (x : Int) (n : Nat) (l : List Int) (i : Nat) :
    (List.replicate n x ++ l)[i]? = if i < n then some x else l[i - n]? := by
  rw [List.getElem?_append]
  simp only [List.length_replicate, List.getElem?_replicate]
  split <;> simp_all

theorem fillMethodOdds_layout (pl i : Nat) (hpl : pl ≤ 100) (hi : i < 100) :
    (fillMethodOdds pl)[i]? =
      some (if i < pl then StatusRequestEntityTooLarge else StatusOK) := by
  simp only [fillMethodOdds, getElem?_replicate_append, List.getElem?_replicate]
  split_ifs <;> first | rfl | omega

theorem fillActionOdds_layout (pd pt pn i : Nat) (hsum : pd + pt + pn ≤ 100) (hi : i < 100) :
    (fillActionOdds pd pt pn)[i]? = some (
      if i < pd then StatusConflict
      else if i < pd + pt then StatusTooManyRequests
      else if i < pd + pt + pn then StatusNotAcceptable
      else StatusOK) := by
  simp only [fillActionOdds, List.append_assoc, getElem?_replicate_append,
    List.getElem?_replicate]
  split_ifs <;> first | rfl | omega

theorem getD_replicate_zero100 (i : Nat) : (List.replicate 100 (0 : Int)).getD i 0 = 0 := by
  simp only [List.getD_eq_getElem?_getD, List.getElem?_replicate]
  split <;> rfl

/-- Claim C4: in deterministic mode the bulk result does not depend on the
random oracle at all, and every parsed action of every verb yields exactly
the item whose status is the decision function applied to the action and
its raw document payload. -/
theorem bulk_deterministic_outcomes (f : Action → Option String → Int)
    (rng rng2 : Nat → Fin 100) (m : Metrics) (lines : List Line) :
    Bulk (NewDeterministicAPIHandler f) rng m lines =
      Bulk (NewDeterministicAPIHandler f) rng2 m lines ∧
    (∀ st resp, Bulk (NewDeterministicAPIHandler f) rng m lines = BulkResult.ok st resp →
      resp.Items = (parsedActionsP lines).map (detItem f)) := by
  constructor
  · simp only [Bulk, NewDeterministicAPIHandler, zeroTables]
    rw [getD_replicate_zero100, getD_replicate_zero100,
      processLines_rng_irrel f (List.replicate 100 0) rng rng2]
  · intro st resp hok
    rw [Bulk_eq_ok] at hok
    rcases hok with ⟨-, hpl, hresp⟩
    have h2 := processLines_det_items f (NewDeterministicAPIHandler f).tables.ActionOdds rng lines
      ⟨{ m with bulkCreateTotal := m.bulkCreateTotal + 1 }, false, [], 1⟩
    have hdet : (NewDeterministicAPIHandler f).det = some f := rfl
    rw [hdet] at hpl
    rw [hpl] at h2
    subst hresp
    simpa [outState] using h2

/-- Claim C5: when the request-level draw yields the too-large status,
`Bulk` writes that status and returns at once: the per-action counters are
untouched (only the request total and the too-large counter advance), no
items are produced, no per-action draw is consumed, and the body is
empty. -/
theorem bulk_too_large_short_circuits (h : APIHandler) (rng : Nat → Fin 100)
    (m : Metrics) (lines : List Line)
    (hm : h.tables.MethodOdds.getD (rng 0).val 0 = StatusRequestEntityTooLarge) :
    Bulk h rng m lines =
      BulkResult.tooLarge
        ⟨{ m with
            bulkCreateTotal := m.bulkCreateTotal + 1
            bulkCreateTooLarge := m.bulkCreateTooLarge + 1 }, false, [], 1⟩
        StatusRequestEntityTooLarge := by
  simp only [Bulk]
  rw [if_pos hm, hm]

theorem intOfUint_of_lt (x : Nat) (h : x < 2 ^ 63) : intOfUint x = (x : Int) := by
  unfold intOfUint
  rw [Nat.mod_eq_of_lt (lt_trans h (by norm_num))]
  rw [if_pos h]

theorem fillSlots_ok (x : Int) (c : Nat) : ∀ (arr : List Int) (n : Nat),
    n + c ≤ arr.length →
    fillSlots x arr n c = Sum.inl (fillUpTo x arr n c, n + c) := by
  induction c with
  | zero => intro arr n _; simp [fillSlots, fillUpTo]
  | succ k ih =>
    intro arr n h
    simp only [fillSlots, fillUpTo]
    rw [if_pos (by omega)]
    rw [ih (arr.set n x) (n + 1) (by simp; omega)]
    simp only [Sum.inl.injEq, Prod.mk.injEq]
    refine ⟨?_, ?_⟩
    · trivial
    · omega

theorem fillSlots_panics (x : Int) (c : Nat) : ∀ (arr : List Int) (n : Nat),
    n ≤ arr.length → arr.length < n + c →
    fillSlots x arr n c = Sum.inr (fillUpTo x arr n (arr.length - n)) := by
  induction c with
  | zero => intro arr n h1 h2; omega
  | succ k ih =>
    intro arr n h1 h2
    by_cases hn : n < arr.length
    · simp only [fillSlots]
      rw [if_pos hn]
      rw [ih (arr.set n x) (n + 1) (by simp; omega) (by simp; omega)]
      have hlen : (arr.set n x).length = arr.length := by simp
      rw [hlen]
      have hc : arr.length - n = (arr.length - (n + 1)) + 1 := by omega
      rw [hc]
      simp only [fillUpTo]
    · simp only [fillSlots]
      rw [if_neg hn]
      have hz : arr.length - n = 0 := by omega
      rw [hz]
      simp [fillUpTo]

theorem fillUpTo_length (x : Int) (c : Nat) : ∀ (arr : List Int) (n : Nat),
    (fillUpTo x arr n c).length = arr.length := by
  induction c with
  | zero => intro arr n; rfl
  | succ k ih =>
    intro arr n
    simp only [fillUpTo]
    rw [ih (arr.set n x) (n + 1)]
    simp

theorem fillUpTo_getElem (x : Int) (c : Nat) : ∀ (arr : List Int) (n : Nat),
    n + c ≤ arr.length → ∀ i,
    (fillUpTo x arr n c)[i]? =
      if n ≤ i ∧ i < n + c then some x else arr[i]? := by
  induction c with
  | zero =>
    intro arr n _ i
    simp only [fillUpTo]
    rw [if_neg (by omega)]
  | succ k ih =>
    intro arr n h i
    simp only [fillUpTo]
    rw [ih (arr.set n x) (n + 1) (by simp; omega) i]
    rw [List.getElem?_set]
    split_ifs <;> simp_all <;> omega

theorem updateOdds_ok_of_valid (t : OddsTables) (pd pt pn pl : Nat)
    (hA : t.ActionOdds.length = 100) (hM : t.MethodOdds.length = 100)
    (hsum : pd + pt + pn ≤ 100) (hpl : pl ≤ 100) :
    UpdateOdds t pd pt pn pl =
      UpdateResult.ok ⟨fillActionOdds pd pt pn, fillMethodOdds pl⟩ := by
  have hA1 : (fillUpTo StatusConflict t.ActionOdds 0 pd).length = 100 := by
    rw [fillUpTo_length, hA]
  have hA2 : (fillUpTo StatusTooManyRequests (fillUpTo StatusConflict t.ActionOdds 0 pd)
      (0 + pd) pt).length = 100 := by
    rw [fillUpTo_length, hA1]
  have hA3 : (fillUpTo StatusNotAcceptable (fillUpTo StatusTooManyRequests
      (fillUpTo StatusConflict t.ActionOdds 0 pd) (0 + pd) pt)
      (0 + pd + pt) pn).length = 100 := by
    rw [fillUpTo_length, hA2]
  have hM1 : (fillUpTo StatusRequestEntityTooLarge t.MethodOdds 0 pl).length = 100 := by
    rw [fillUpTo_length, hM]
  have e1 := fillSlots_ok StatusConflict pd t.ActionOdds 0 (by omega)
  have e2 := fillSlots_ok StatusTooManyRequests pt
    (fillUpTo StatusConflict t.ActionOdds 0 pd) (0 + pd) (by rw [hA1]; omega)
  have e3 := fillSlots_ok StatusNotAcceptable pn
    (fillUpTo StatusTooManyRequests (fillUpTo StatusConflict t.ActionOdds 0 pd) (0 + pd) pt)
    (0 + pd + pt) (by rw [hA2]; omega)
  have e4 := fillSlots_ok StatusRequestEntityTooLarge pl t.MethodOdds 0 (by omega)
  have hAF : fillRemainder StatusOK
      (fillUpTo StatusNotAcceptable (fillUpTo StatusTooManyRequests
        (fillUpTo StatusConflict t.ActionOdds 0 pd) (0 + pd) pt) (0 + pd + pt) pn)
      (0 + pd + pt + pn) = fillActionOdds pd pt pn := by
    apply List.ext_getElem?
    intro i
    unfold fillRemainder
    rw [hA3]
    rw [fillUpTo_getElem _ _ _ _ (by rw [hA3]; omega) i]
    rw [fillUpTo_getElem _ _ _ _ (by rw [hA2]; omega) i]
    rw [fillUpTo_getElem _ _ _ _ (by rw [hA1]; omega) i]
    rw [fillUpTo_getElem _ _ _ _ (by rw [hA]; omega) i]
    simp only [fillActionOdds, List.append_assoc, getElem?_replicate_append,
      List.getElem?_replicate]
    split_ifs <;> first | rfl | omega | (exact List.getElem?_eq_none (by omega))
  have hMF : fillRemainder StatusOK
      (fillUpTo StatusRequestEntityTooLarge t.MethodOdds 0 pl) (0 + pl) =
      fillMethodOdds pl := by
    apply List.ext_getElem?
    intro i
    unfold fillRemainder
    rw [hM1]
    rw [fillUpTo_getElem _ _ _ _ (by rw [hM1]; omega) i]
    rw [fillUpTo_getElem _ _ _ _ (by rw [hM]; omega) i]
    simp only [fillMethodOdds, getElem?_replicate_append, List.getElem?_replicate]
    split_ifs <;> first | rfl | omega | (exact List.getElem?_eq_none (by omega))
  unfold UpdateOdds
  rw [intOfUint_of_lt (pd + pt + pn) (lt_of_le_of_lt hsum (by norm_num))]
  rw [intOfUint_of_lt pl (lt_of_le_of_lt hpl (by norm_num))]
  rw [if_neg (by omega), if_neg (by omega)]
  simp only [e1, e2, e3, e4, hAF, hMF]

theorem updateOdds_invalid_err (t : OddsTables) (pd pt pn pl : Nat)
    (hw1 : pd + pt + pn < 2 ^ 63) (hw2 : pl < 2 ^ 63)
    (hbad : 100 < pd + pt + pn ∨ 100 < pl) :
    ∃ e, UpdateOdds t pd pt pn pl = UpdateResult.err e := by
  unfold UpdateOdds
  rw [intOfUint_of_lt (pd + pt + pn) hw1, intOfUint_of_lt pl hw2]
  rcases hbad with hb | hb
  · rw [if_pos (by omega)]
    exact ⟨_, rfl⟩
  · by_cases h1 : ((pd + pt + pn : Nat) : Int) > 100
    · rw [if_pos h1]
      exact ⟨_, rfl⟩
    · rw [if_neg h1, if_pos (by omega)]
      exact ⟨_, rfl⟩

/-- Claim C6, amended: for percentage arguments small enough that the Go
uint-to-int conversion of their sums does not overflow (below 2^63 — in
particular all real percentages), `UpdateOdds` returns an error exactly
when `percentDuplicate+percentTooMany+percentNonIndex > 100` or
`percentTooLarge > 100`, leaving both tables exactly as they were, and
the probabilistic constructor fails likewise.  (At 2^63 and beyond the
conversion goes negative, validation wrongly passes and the fill loop
panics after mutating `ActionOdds` — see the counterexample.) -/
theorem updateOdds_invalid_rejected (t : OddsTables) (pd pt pn pl : Nat)
    (hw1 : pd + pt + pn < 2 ^ 63) (hw2 : pl < 2 ^ 63)
    (hbad : 100 < pd + pt + pn ∨ 100 < pl) :
    (∃ e, UpdateOdds t pd pt pn pl = UpdateResult.err e) ∧
    oddsAfterUpdate t pd pt pn pl = t ∧
    NewAPIHandler pd pt pn pl = none := by
  obtain ⟨e, he⟩ := updateOdds_invalid_err t pd pt pn pl hw1 hw2 hbad
  obtain ⟨e2, he2⟩ := updateOdds_invalid_err zeroTables pd pt pn pl hw1 hw2 hbad
  refine ⟨⟨e, he⟩, ?_, ?_⟩
  · unfold oddsAfterUpdate
    rw [he]
  · unfold NewAPIHandler
    rw [he2]

/-- Claim C6 as stated is false on the code: at `percentDuplicate = 2^63`
the wrapped uint sum reinterprets as a negative int, validation wrongly
passes, and the first fill loop panics out of range after overwriting
every `ActionOdds` slot with the conflict status — the call returns no
error and the tables do not keep their prior value. -/
theorem updateOdds_overflow_counterexample :
    100 < 2 ^ 63 + 0 + 0 ∧
    UpdateOdds zeroTables (2 ^ 63) 0 0 0 =
      UpdateResult.panicked ⟨List.replicate 100 StatusConflict, List.replicate 100 0⟩ ∧
    (UpdateOdds zeroTables (2 ^ 63) 0 0 0).isErr = false ∧
    ¬ oddsAfterUpdate zeroTables (2 ^ 63) 0 0 0 = zeroTables := by
  have hupd : UpdateOdds zeroTables (2 ^ 63) 0 0 0 =
      UpdateResult.panicked ⟨List.replicate 100 StatusConflict, List.replicate 100 0⟩ := by
    unfold UpdateOdds
    rw [if_neg (by decide), if_neg (by decide)]
    rw [fillSlots_panics StatusConflict (2 ^ 63) zeroTables.ActionOdds 0
      (by decide) (by decide)]
    decide
  refine ⟨by norm_num, hupd, ?_, ?_⟩
  · rw [hupd]
    rfl
  · unfold oddsAfterUpdate
    rw [hupd]
    decide

/-- Claim C7: for valid percentages (and the length-100 arrays fixed by
the Go type `[100]int` of the receiver's fields) `UpdateOdds` succeeds and
produces the 100-slot layouts the spec describes: `percentDuplicate`
conflict slots, then `percentTooMany` too-many slots, then
`percentNonIndex` not-acceptable slots, then success; and
`percentTooLarge` too-large slots, then success. -/
theorem updateOdds_valid_layout (t : OddsTables) (pd pt pn pl : Nat)
    (hA : t.ActionOdds.length = 100) (hM : t.MethodOdds.length = 100)
    (hsum : pd + pt + pn ≤ 100) (hpl : pl ≤ 100) :
    ∃ t2, UpdateOdds t pd pt pn pl = UpdateResult.ok t2 ∧
      ∀ i, i < 100 →
        t2.ActionOdds[i]? = some (
          if i < pd then StatusConflict
          else if i < pd + pt then StatusTooManyRequests
          else if i < pd + pt + pn then StatusNotAcceptable
          else StatusOK) ∧
        t2.MethodOdds[i]? = some (
          if i < pl then StatusRequestEntityTooLarge else StatusOK) := by
  refine ⟨⟨fillActionOdds pd pt pn, fillMethodOdds pl⟩,
    updateOdds_ok_of_valid t pd pt pn pl hA hM hsum hpl, ?_⟩
  intro i hi
  exact ⟨fillActionOdds_layout pd pt pn i hsum hi, fillMethodOdds_layout pl i hpl hi⟩


/-- Claim C8: a malformed action line aborts the whole request with an
HTTP 500 and a diagnostic body, and the per-verb counters already updated
for the actions parsed before the malformed line are kept, not rolled
back. -/
theorem bulk_malformed_aborts_keeps_counters (h : APIHandler) (rng : Nat → Fin 100)
    (m : Metrics) (lines : List Line) (e : String)
    (hm : ¬ h.tables.MethodOdds.getD (rng 0).val 0 = StatusRequestEntityTooLarge)
    (habort : scanAborts lines = some e) :
    ∃ st, Bulk h rng m lines =
        BulkResult.parseError st StatusInternalServerError (diagBody e) ∧
      st.metrics.bulkIndexTotal = m.bulkIndexTotal + countVerb ("index") (parsedActions lines) ∧
      st.metrics.bulkUpdateTotal =
        m.bulkUpdateTotal + countVerb ("update") (parsedActions lines) ∧
      st.metrics.bulkDeleteTotal =
        m.bulkDeleteTotal + countVerb ("delete") (parsedActions lines) := by
  have houterr := outErr_processLines h.det h.tables.ActionOdds rng lines
    ⟨{ m with bulkCreateTotal := m.bulkCreateTotal + 1 }, false, [], 1⟩
  rw [habort] at houterr
  have hmet := processLines_metrics h.det h.tables.ActionOdds rng lines
    ⟨{ m with bulkCreateTotal := m.bulkCreateTotal + 1 }, false, [], 1⟩
  cases hpl : processLines h.det h.tables.ActionOdds rng lines
      ⟨{ m with bulkCreateTotal := m.bulkCreateTotal + 1 }, false, [], 1⟩ with
  | inl st2 =>
    rw [hpl] at houterr
    simp [outErr] at houterr
  | inr p =>
    obtain ⟨st2, e2⟩ := p
    rw [hpl] at houterr
    simp only [outErr, Option.some.injEq] at houterr
    rw [hpl] at hmet
    simp only [outState] at hmet
    refine ⟨st2, ?_, ?_, ?_, ?_⟩
    · rw [Bulk_eq_parseError]
      exact ⟨hm, e2, hpl, rfl, by rw [houterr]⟩
    · simpa using hmet.1
    · simpa using hmet.2.1
    · simpa using hmet.2.2

theorem set_append_len {α : Type} (l₁ l₂ : List α) (x : α) :
    (l₁ ++ l₂).set l₁.length x = l₁ ++ l₂.set 0 x := by
  induction l₁ with
  | nil => simp
  | cons a t ih => simp [List.set, ih]

theorem filterMap_id_replicate_none {α : Type} (n : Nat) :
    (List.replicate n (none : Option α)).filterMap id = [] := by
  induction n with
  | zero => rfl
  | succ k ih => simp [List.replicate, ih]

theorem foldl_record_cap0 (recs : List RequestRecord) :
    List.foldl recordRequest (initHistory 0) recs = initHistory 0 := by
  induction recs with
  | nil => rfl
  | cons r t ih => simpa [recordRequest, initHistory] using ih

theorem foldl_record_no_wrap (cap : Nat) (recs : List RequestRecord)
    (hlen : recs.length ≤ cap) :
    List.foldl recordRequest (initHistory cap) recs =
      ⟨recs.map some ++ List.replicate (cap - recs.length) none, recs.length % cap⟩ := by
  induction recs using List.reverseRecOn with
  | nil => simp [initHistory]
  | append_singleton recs r ih =>
    rw [List.length_append] at hlen
    simp only [List.length_singleton] at hlen
    have hn : recs.length < cap := by omega
    rw [List.foldl_append, ih (by omega)]
    simp only [List.foldl_cons, List.foldl_nil]
    unfold recordRequest
    simp only [List.length_append, List.length_map, List.length_replicate]
    have hcap : recs.length + (cap - recs.length) = cap := by omega
    rw [hcap, if_neg (by omega), Nat.mod_eq_of_lt hn]
    have hset := set_append_len (recs.map some) (List.replicate (cap - recs.length) none) (some r)
    simp only [List.length_map] at hset
    rw [hset]
    obtain ⟨k, hk⟩ : ∃ k, cap - recs.length = k + 1 := ⟨cap - recs.length - 1, by omega⟩
    rw [hk, List.replicate_succ, List.set_cons_zero]
    have hk2 : cap - (recs.length + 1) = k := by omega
    simp only [List.map_append, List.map_singleton, List.length_append,
      List.length_singleton, hk2]
    simp [List.append_assoc]


/-- Claim C9, amended: a capacity-0 ring records nothing and its snapshot
is always empty; with capacity 2 recording three requests keeps exactly
the last two, oldest evicted; and the snapshot lists the populated slots
in slot-index order, which coincides with write order only as long as at
most capacity-many records have been written (before the ring wraps) —
after wrapping it is a rotation of the write order (capacity 2 after three
records yields newest first). -/
theorem history_ring_semantics (recs : List RequestRecord) (r1 r2 r3 : RequestRecord)
    (cap : Nat) (hlen : recs.length ≤ cap) :
    History (List.foldl recordRequest (initHistory 0) recs) = [] ∧
    History (List.foldl recordRequest (initHistory 2) [r1, r2, r3]) = [r3, r2] ∧
    History (List.foldl recordRequest (initHistory cap) recs) = recs := by
  refine ⟨?_, ?_, ?_⟩
  · rw [foldl_record_cap0]
    rfl
  · simp [initHistory, recordRequest, History, List.replicate, List.set]
  · rw [foldl_record_no_wrap cap recs hlen]
    simp only [History, List.filterMap_append, filterMap_id_replicate_none, List.append_nil]
    simp

/-- Claim C9 as stated is false on the code: the snapshot walks the slots
in index order, so once the capacity-2 ring has wrapped after a third
record the snapshot is `[third, second]`, not the write order `[second,
third]` the spec describes. -/
theorem history_order_counterexample :
    History (List.foldl recordRequest (initHistory 2) [recA, recB, recC]) = [recC, recB] ∧
    snapshotSpecOrdered 2 [recA, recB, recC] = [recB, recC] ∧
    ¬ (([recC, recB] : List RequestRecord) = [recB, recC]) := by
  exact ⟨by decide, by decide, by decide⟩

/-- Claim C10: any non-empty line that is a JSON object with exactly one
key parses as an action whatever its key is; in probabilistic mode an
action with an unrecognized verb still consumes the following line as its
payload but leaves the counters, the items, the errors flag and the draw
index untouched. -/
theorem unknown_verb_parsed_and_inert (raw k v meta : String) (odds : List Int)
    (rng : Nat → Fin 100) (d : Line) (rest2 : List Line) (st : BulkState)
    (hk1 : ¬ k = "delete") (hk2 : ¬ k = "index") (hk3 : ¬ k = "create") (hk4 : ¬ k = "update") :
    parseAction (Line.obj raw [(k, v)]) = Except.ok ⟨k, v⟩ ∧
    processLines none odds rng (Line.obj raw [(k, meta)] :: d :: rest2) st =
      processLines none odds rng rest2 st := by
  constructor
  · rfl
  · have hstep : stepAction none odds rng st ⟨k, meta⟩ (some d.raw) = st := by
      unfold stepAction
      simp only [hk3, if_false]
      rw [updateMetrics_unknown st.metrics k 0 hk2 hk3 hk4 hk1]
      simp
    have hparse : parseAction (Line.obj raw [(k, meta)]) = Except.ok ⟨k, meta⟩ := rfl
    simp only [processLines, Line.isBlank, hparse, Bool.false_eq_true, if_false]
    simp only [hk1, if_false, hstep]


theorem bulk_errors_iff_create_failure_item_witness :
    Bulk probHandlerAllDup rng0 Metrics.zero linesCreate =
      BulkResult.ok ⟨⟨1, 0, 0, 1, 0, 0, 0, 0, 0⟩, true, [⟨"create", StatusConflict⟩], 2⟩
        ⟨true, [⟨"create", StatusConflict⟩]⟩ ∧
    ((⟨true, [⟨"create", StatusConflict⟩]⟩ : BulkResponse).Errors = true ↔
      ∃ it ∈ (⟨true, [⟨"create", StatusConflict⟩]⟩ : BulkResponse).Items, failItem it) :=
  ⟨by decide,
    bulk_errors_iff_create_failure_item probHandlerAllDup rng0 Metrics.zero linesCreate
      ⟨⟨1, 0, 0, 1, 0, 0, 0, 0, 0⟩, true, [⟨"create", StatusConflict⟩], 2⟩
      ⟨true, [⟨"create", StatusConflict⟩]⟩ (by decide)⟩

theorem bulk_items_one_per_kept_action_witness :
    Bulk probHandlerAllOk rng0 Metrics.zero linesCreate =
      BulkResult.ok ⟨⟨1, 0, 1, 0, 0, 0, 0, 0, 0⟩, false, [⟨"create", StatusOK⟩], 2⟩
        ⟨false, [⟨"create", StatusOK⟩]⟩ ∧
    (⟨false, [⟨"create", StatusOK⟩]⟩ : BulkResponse).Items.map Item.verb =
      ((parsedActions linesCreate).filter (keepsItem probHandlerAllOk.det)).map Action.Action :=
  ⟨by decide,
    bulk_items_one_per_kept_action probHandlerAllOk rng0 Metrics.zero linesCreate
      ⟨⟨1, 0, 1, 0, 0, 0, 0, 0, 0⟩, false, [⟨"create", StatusOK⟩], 2⟩
      ⟨false, [⟨"create", StatusOK⟩]⟩ (by decide)⟩

theorem bulk_delete_only_never_samples_witness :
    Bulk ⟨none, ⟨fillActionOdds 0 0 0, fillMethodOdds 0⟩⟩ rng0 Metrics.zero linesDelete =
      BulkResult.ok ⟨⟨1, 0, 0, 0, 0, 0, 0, 0, 1⟩, false, [], 1⟩ ⟨false, []⟩ ∧
    ((⟨⟨1, 0, 0, 0, 0, 0, 0, 0, 1⟩, false, [], 1⟩ : BulkState).randIdx =
        1 + countVerb ("create") (parsedActions linesDelete) ∧
      ((∀ a ∈ parsedActions linesDelete, a.Action = "delete") →
        (⟨⟨1, 0, 0, 0, 0, 0, 0, 0, 1⟩, false, [], 1⟩ : BulkState).randIdx = 1 ∧
          (⟨false, []⟩ : BulkResponse).Errors = false)) :=
  ⟨by decide,
    bulk_delete_only_never_samples ⟨fillActionOdds 0 0 0, fillMethodOdds 0⟩ rng0
      Metrics.zero linesDelete ⟨⟨1, 0, 0, 0, 0, 0, 0, 0, 1⟩, false, [], 1⟩ ⟨false, []⟩
      (by decide)⟩

theorem bulk_deterministic_outcomes_witness :
    Bulk (NewDeterministicAPIHandler fMixed) rng0 Metrics.zero linesMixed =
      Bulk (NewDeterministicAPIHandler fMixed) rng1 Metrics.zero linesMixed ∧
    (⟨true, [⟨"create", StatusConflict⟩, ⟨"index", StatusNotAcceptable⟩]⟩ :
        BulkResponse).Items =
      (parsedActionsP linesMixed).map (detItem fMixed) :=
  ⟨(bulk_deterministic_outcomes fMixed rng0 rng1 Metrics.zero linesMixed).1,
    (bulk_deterministic_outcomes fMixed rng0 rng1 Metrics.zero linesMixed).2
      ⟨⟨1, 0, 0, 1, 0, 0, 1, 0, 0⟩, true,
        [⟨"create", StatusConflict⟩, ⟨"index", StatusNotAcceptable⟩], 1⟩
      ⟨true, [⟨"create", StatusConflict⟩, ⟨"index", StatusNotAcceptable⟩]⟩ (by decide)⟩

theorem bulk_too_large_short_circuits_witness :
    probHandlerAllTooLarge.tables.MethodOdds.getD (rng0 0).val 0 =
      StatusRequestEntityTooLarge ∧
    Bulk probHandlerAllTooLarge rng0 Metrics.zero linesCreate =
      BulkResult.tooLarge ⟨⟨1, 1, 0, 0, 0, 0, 0, 0, 0⟩, false, [], 1⟩
        StatusRequestEntityTooLarge :=
  ⟨by decide,
    by
      have h := bulk_too_large_short_circuits probHandlerAllTooLarge rng0 Metrics.zero
        linesCreate (by decide)
      simpa [Metrics.zero] using h⟩

theorem updateOdds_invalid_rejected_witness :
    (60 + 60 + 0 < 2 ^ 63 ∧ 0 < 2 ^ 63 ∧ (100 < 60 + 60 + 0 ∨ 100 < 0)) ∧
    ((∃ e, UpdateOdds zeroTables 60 60 0 0 = UpdateResult.err e) ∧
      oddsAfterUpdate zeroTables 60 60 0 0 = zeroTables ∧
      NewAPIHandler 60 60 0 0 = none) :=
  ⟨⟨by decide, by decide, by decide⟩,
    updateOdds_invalid_rejected zeroTables 60 60 0 0 (by decide) (by decide) (by decide)⟩

theorem updateOdds_valid_layout_witness :
    (zeroTables.ActionOdds.length = 100 ∧ zeroTables.MethodOdds.length = 100 ∧
      5 + 10 + 15 ≤ 100 ∧ 20 ≤ 100) ∧
    (∃ t2, UpdateOdds zeroTables 5 10 15 20 = UpdateResult.ok t2 ∧
      ∀ i, i < 100 →
        t2.ActionOdds[i]? = some (
          if i < 5 then StatusConflict
          else if i < 5 + 10 then StatusTooManyRequests
          else if i < 5 + 10 + 15 then StatusNotAcceptable
          else StatusOK) ∧
        t2.MethodOdds[i]? = some (
          if i < 20 then StatusRequestEntityTooLarge else StatusOK)) :=
  ⟨⟨by decide, by decide, by decide, by decide⟩,
    updateOdds_valid_layout zeroTables 5 10 15 20 (by decide) (by decide)
      (by decide) (by decide)⟩

theorem bulk_malformed_aborts_keeps_counters_witness :
    (¬ probHandlerAllOk.tables.MethodOdds.getD (rng0 0).val 0 =
        StatusRequestEntityTooLarge) ∧
    scanAborts linesMalformed =
      some ("error, unexpected number of keys: got 2, it should be 1") ∧
    (∃ st, Bulk probHandlerAllOk rng0 Metrics.zero linesMalformed =
        BulkResult.parseError st StatusInternalServerError
          (diagBody ("error, unexpected number of keys: got 2, it should be 1")) ∧
      st.metrics.bulkIndexTotal =
        Metrics.zero.bulkIndexTotal + countVerb ("index") (parsedActions linesMalformed) ∧
      st.metrics.bulkUpdateTotal =
        Metrics.zero.bulkUpdateTotal + countVerb ("update") (parsedActions linesMalformed) ∧
      st.metrics.bulkDeleteTotal =
        Metrics.zero.bulkDeleteTotal + countVerb ("delete") (parsedActions linesMalformed)) :=
  ⟨by decide, by decide,
    bulk_malformed_aborts_keeps_counters probHandlerAllOk rng0 Metrics.zero linesMalformed
      ("error, unexpected number of keys: got 2, it should be 1") (by decide) (by decide)⟩

theorem history_ring_semantics_witness :
    ([recA, recB] : List RequestRecord).length ≤ 2 ∧
    (History (List.foldl recordRequest (initHistory 0) [recA, recB]) = [] ∧
      History (List.foldl recordRequest (initHistory 2) [recA, recB, recC]) = [recC, recB] ∧
      History (List.foldl recordRequest (initHistory 2) [recA, recB]) = [recA, recB]) :=
  ⟨by decide, history_ring_semantics [recA, recB] recA recB recC 2 (by decide)⟩

theorem unknown_verb_parsed_and_inert_witness :
    (¬ ("upsert" : String) = "delete") ∧
    parseAction (Line.obj ("x") [("upsert", "v")]) = Except.ok ⟨"upsert", "v"⟩ ∧
    processLines none [] rng0 (Line.obj ("x") [("upsert", "m")] :: Line.blank :: [])
        ⟨Metrics.zero, false, [], 0⟩ =
      processLines none [] rng0 [] ⟨Metrics.zero, false, [], 0⟩ :=
  ⟨by decide,
    (unknown_verb_parsed_and_inert ("x") ("upsert") ("v") ("m") [] rng0 Line.blank []
      ⟨Metrics.zero, false, [], 0⟩ (by decide) (by decide) (by decide) (by decide)).1,
    (unknown_verb_parsed_and_inert ("x") ("upsert") ("v") ("m") [] rng0 Line.blank []
      ⟨Metrics.zero, false, [], 0⟩ (by decide) (by decide) (by decide) (by decide)).2⟩

end MockES
